import Mathlib

/-
Shallow embedding of the two widgets of this repository:
KDateComboBox (src/kdatecombobox.h) and KDateTable (src/kdatetable_p.h).

The repository ships only the class headers; the member-function bodies
(kdatecombobox.cpp, kdatetable.cpp) are not among the sources.  Every
behavioural definition below is therefore modelled from the specification
and from the doc comments in the headers, and is marked as such.
-/

/-- A QDate value: `none` is a null/invalid date, `some j` is a valid date
identified by its Julian day number `j`. -/
abbrev QDate := Option Int

/-- The Qt strict order on QDate used by QMap keys: a null date compares
less than every valid date, valid dates compare by Julian day. -/
def qdateLt : QDate → QDate → Bool
  | none, none => false
  | none, some _ => true
  | some _, none => false
  | some a, some b => decide (a < b)

/-- One QMap insertion: the association list is kept strictly sorted by
`qdateLt` on the keys, and an insertion with an already present key replaces
the stored value. -/
def qmapInsert (k : QDate) (v : String) : List (QDate × String) → List (QDate × String)
  | [] => [(k, v)]
  | (k1, v1) :: t =>
    if qdateLt k k1 then (k, v) :: (k1, v1) :: t
    else if qdateLt k1 k then (k1, v1) :: qmapInsert k v t
    else (k, v) :: t

/-- Build a QMap from a list of key/value insertions, in order. -/
def qmapFromList (l : List (QDate × String)) : List (QDate × String) :=
  l.foldl (fun m kv => qmapInsert kv.1 kv.2 m) []

/-- Every key in the list is `qdateLt`-greater than `p`. -/
def allLt (p : QDate) (l : List (QDate × String)) : Bool :=
  l.all fun kv => qdateLt p kv.1

/-- The keys of the association list are strictly ascending for `qdateLt`
(stated pairwise: each key is below all later keys). -/
def keysSorted : List (QDate × String) → Bool
  | [] => true
  | a :: t => allLt a.1 t && keysSorted t

namespace KDateComboBox

/-- Values of the `KDateComboBox::Option` enum (kdatecombobox.h). -/
def EditDate : Nat := 1

/-- Allow the user to select the date from a drop-down menu. -/
def SelectDate : Nat := 2

/-- Show a date picker in the drop-down. -/
def DatePicker : Nat := 4

/-- Show date keywords in the drop-down. -/
def DateKeywords : Nat := 8

/-- Show a warning on focus out if the date is invalid. -/
def WarnOnInvalid : Nat := 16

end KDateComboBox

/-- The widget state held by KDateComboBoxPrivate that the public interface
of kdatecombobox.h exposes: the current date, the optional minimum and
maximum dates with their warning messages, the option bitmask, and the
drop-down date map. -/
structure KDateComboBoxState where
  m_date : QDate
  m_minDate : QDate
  m_maxDate : QDate
  m_minWarnMsg : String
  m_maxWarnMsg : String
  m_options : Nat
  m_dateMap : List (QDate × String)

namespace KDateComboBox

/-- Getter KDateComboBox::date — the currently selected date. -/
def date (s : KDateComboBoxState) : QDate := s.m_date

/-- Getter KDateComboBox::minimumDate — the current minimum date. -/
def minimumDate (s : KDateComboBoxState) : QDate := s.m_minDate

/-- Getter KDateComboBox::maximumDate — the current maximum date. -/
def maximumDate (s : KDateComboBoxState) : QDate := s.m_maxDate

/-- Getter KDateComboBox::dateMap — the map of dates listed in the drop-down
and their displayed string forms. -/
def dateMap (s : KDateComboBoxState) : List (QDate × String) := s.m_dateMap

/-- Getter KDateComboBox::options — the currently set widget options. -/
def options (s : KDateComboBoxState) : Nat := s.m_options

/-- Whether the option bit `o` is set in the widget's option bitmask. -/
def hasOption (s : KDateComboBoxState) (o : Nat) : Bool :=
  decide (s.m_options &&& o ≠ 0)

/-- Modelled from the spec: KDateComboBox::isNull (body not in the sources).
The current user input is null when no date is entered, i.e. the stored
date is the null date. -/
def isNull (s : KDateComboBoxState) : Bool := s.m_date.isNone

/-- Modelled from the spec: KDateComboBox::isValid (body not in the sources).
Null user input is not valid, and a date outside the set minimum/maximum
range is not valid; an unset bound imposes no constraint. -/
def isValid (s : KDateComboBoxState) : Bool :=
  match s.m_date with
  | none => false
  | some d =>
      (match s.m_minDate with
       | none => true
       | some a => decide (a ≤ d)) &&
      (match s.m_maxDate with
       | none => true
       | some b => decide (d ≤ b))

/-- Modelled from the spec: KDateComboBox::setDate (body not in the sources).
The date is stored unchanged, even if invalid or outside the valid range;
validity checking is only done via isValid. -/
def setDate (d : QDate) (s : KDateComboBoxState) : KDateComboBoxState :=
  { s with m_date := d }

/-- Modelled from the spec: KDateComboBox::setOptions (body not in the
sources). Stores the new option bitmask. -/
def setOptions (o : Nat) (s : KDateComboBoxState) : KDateComboBoxState :=
  { s with m_options := o }

/-- Modelled from the spec: KDateComboBox::setDateRange (body not in the
sources). Both dates must be valid and the minimum must be less than or
equal to the maximum, otherwise the date range is not set. -/
def setDateRange (minDate maxDate : QDate) (minWarnMsg maxWarnMsg : String)
    (s : KDateComboBoxState) : KDateComboBoxState :=
  match minDate, maxDate with
  | some a, some b =>
      if a ≤ b then
        { s with m_minDate := some a, m_maxDate := some b,
                 m_minWarnMsg := minWarnMsg, m_maxWarnMsg := maxWarnMsg }
      else s
  | _, _ => s

/-- Modelled from the spec: KDateComboBox::setMinimumDate (body not in the
sources). If the date is invalid, or greater than the current maximum, the
minimum is not set. -/
def setMinimumDate (minDate : QDate) (minWarnMsg : String)
    (s : KDateComboBoxState) : KDateComboBoxState :=
  match minDate with
  | none => s
  | some a =>
      match s.m_maxDate with
      | some b =>
          if b < a then s
          else { s with m_minDate := some a, m_minWarnMsg := minWarnMsg }
      | none => { s with m_minDate := some a, m_minWarnMsg := minWarnMsg }

/-- Modelled from the spec: KDateComboBox::setMaximumDate (body not in the
sources). If the date is invalid, or less than the current minimum, the
maximum is not set. -/
def setMaximumDate (maxDate : QDate) (maxWarnMsg : String)
    (s : KDateComboBoxState) : KDateComboBoxState :=
  match maxDate with
  | none => s
  | some b =>
      match s.m_minDate with
      | some a =>
          if b < a then s
          else { s with m_maxDate := some b, m_maxWarnMsg := maxWarnMsg }
      | none => { s with m_maxDate := some b, m_maxWarnMsg := maxWarnMsg }

/-- Modelled from the spec: KDateComboBox::resetDateRange (body not in the
sources). Resets minimum and maximum to the default of no bound. -/
def resetDateRange (s : KDateComboBoxState) : KDateComboBoxState :=
  { s with m_minDate := none, m_maxDate := none,
           m_minWarnMsg := "", m_maxWarnMsg := "" }

/-- Modelled from the spec: KDateComboBox::resetMinimumDate (body not in the
sources). The default is to have no minimum date. -/
def resetMinimumDate (s : KDateComboBoxState) : KDateComboBoxState :=
  { s with m_minDate := none, m_minWarnMsg := "" }

/-- Modelled from the spec: KDateComboBox::resetMaximumDate (body not in the
sources). The default is to have no maximum date. -/
def resetMaximumDate (s : KDateComboBoxState) : KDateComboBoxState :=
  { s with m_maxDate := none, m_maxWarnMsg := "" }

/-- Modelled from the spec: KDateComboBox::setDateMap (body not in the
sources). Stores the supplied drop-down date map; the minimum and maximum
dates are not affected. -/
def setDateMap (m : List (QDate × String)) (s : KDateComboBoxState) : KDateComboBoxState :=
  { s with m_dateMap := m }

/-- Modelled from the spec: the warning behaviour of
KDateComboBox::focusOutEvent (body not in the sources). A warning message
is shown exactly when the WarnOnInvalid option is set and the entered date
is invalid (unparsable or outside the minimum/maximum range). -/
def focusOutWarns (s : KDateComboBoxState) : Bool :=
  hasOption s WarnOnInvalid && !(isValid s)

/-- Whether a candidate date lies outside the given minimum/maximum range;
a null date is outside every range, an unset bound excludes nothing. -/
def dateOutsideRange (mn mx d : QDate) : Bool :=
  match d with
  | none => true
  | some x =>
      (match mn with
       | some a => decide (x < a)
       | none => false) ||
      (match mx with
       | some b => decide (b < x)
       | none => false)

/-- The documented range consistency: whenever both a minimum and a maximum
date are set, the minimum is at most the maximum. -/
def rangeConsistent (s : KDateComboBoxState) : Bool :=
  match s.m_minDate, s.m_maxDate with
  | some a, some b => decide (a ≤ b)
  | _, _ => true

end KDateComboBox

/-- The part of the KDateTable display state (kdatetable_p.h) that places
dates in the calendar matrix: the weekday (1..7) of the first day of the
displayed month, the locale's first day of the week (1..7), and how many
days the displayed month has. -/
structure KDateTableState where
  m_weekDayFirstOfMonth : Nat
  firstDayOfWeek : Nat
  daysInMonth : Nat

namespace KDateTable

/-- The column offset of day 1 of the displayed month from the start of its
week row. -/
def firstDayOffset (t : KDateTableState) : Nat :=
  (t.m_weekDayFirstOfMonth + 7 - t.firstDayOfWeek) % 7

/-- Modelled from the spec: KDateTable::posFromDate (body not in the
sources). Calculates the 0-based index of the cell in the matrix holding
the given day of the displayed month. -/
def posFromDate (t : KDateTableState) (day : Nat) : Nat :=
  firstDayOffset t + day - 1

/-- Modelled from the spec: KDateTable::dateFromPos (body not in the
sources). Calculates the day of the displayed month shown at the given
0-based cell index; inverse function to posFromDate. -/
def dateFromPos (t : KDateTableState) (pos : Nat) : Nat :=
  pos + 1 - firstDayOffset t

end KDateTable

/-- A sample widget state used by the concrete witnesses: date range
10..20 with warning messages, all options set, current date 100. -/
def sampleState : KDateComboBoxState :=
  { m_date := some 100, m_minDate := some 10, m_maxDate := some 20,
    m_minWarnMsg := "too early", m_maxWarnMsg := "too late",
    m_options := 31, m_dateMap := [] }

/-- A sample table state: month starts on weekday 3, weeks start on day 1,
31 days in the month. -/
def sampleTable : KDateTableState :=
  { m_weekDayFirstOfMonth := 3, firstDayOfWeek := 1, daysInMonth := 31 }

namespace KDateComboBox

/-- Claim C10: replacing the drop-down date map with any map, including
maps holding invalid or duplicate dates, leaves the minimum and the
maximum date unchanged. -/
theorem setDateMap_preserves_range (s : KDateComboBoxState)
    (m : List (QDate × String)) :
    minimumDate (setDateMap m s) = minimumDate s ∧
    maximumDate (setDateMap m s) = maximumDate s :=
  ⟨rfl, rfl⟩

/-- Claim C9: whenever the current user input is null, it is not valid. -/
theorem isNull_not_isValid (s : KDateComboBoxState)
    (h : isNull s = true) : isValid s = false := by
  unfold isNull at h
  unfold isValid
  rcases hd : s.m_date with _ | x
  · rfl
  · rw [hd] at h; simp at h

/-- Witness for isNull_not_isValid at the state whose date is null. -/
theorem isNull_not_isValid_witness :
    isNull (setDate none sampleState) = true ∧
    isValid (setDate none sampleState) = false :=
  ⟨rfl, isNull_not_isValid (setDate none sampleState) rfl⟩

/-- Claim C2: setDate stores any date unchanged, and when the stored date
lies outside the set minimum/maximum range (or is invalid), isValid
reports false. -/
theorem setDate_stores_date (s : KDateComboBoxState) (d : QDate) :
    date (setDate d s) = d ∧
    (dateOutsideRange (minimumDate s) (maximumDate s) d = true →
      isValid (setDate d s) = false) := by
  constructor
  · rfl
  · intro h
    rcases hd : d with _ | x <;>
      rcases hmn : s.m_minDate with _ | a <;>
      rcases hmx : s.m_maxDate with _ | b <;>
      simp_all [isValid, setDate, dateOutsideRange, minimumDate, maximumDate] <;>
      omega

/-- Witness for setDate_stores_date: the date 30 lies above the sample
maximum 20, is stored unchanged, and is reported invalid. -/
theorem setDate_stores_date_witness :
    date (setDate (some 30) sampleState) = some 30 ∧
    isValid (setDate (some 30) sampleState) = false :=
  ⟨(setDate_stores_date sampleState (some 30)).1,
   (setDate_stores_date sampleState (some 30)).2 (by decide)⟩

/-- Claim C1: setDateRange with an invalid minimum, an invalid maximum, or
a minimum above the maximum changes nothing: the stored minimum date,
maximum date and warning messages are all unchanged. -/
theorem setDateRange_invalid_noop (s : KDateComboBoxState) (mn mx : QDate)
    (m1 m2 : String)
    (h : mn = none ∨ mx = none ∨ ∃ a b, mn = some a ∧ mx = some b ∧ b < a) :
    minimumDate (setDateRange mn mx m1 m2 s) = minimumDate s ∧
    maximumDate (setDateRange mn mx m1 m2 s) = maximumDate s ∧
    (setDateRange mn mx m1 m2 s).m_minWarnMsg = s.m_minWarnMsg ∧
    (setDateRange mn mx m1 m2 s).m_maxWarnMsg = s.m_maxWarnMsg := by
  have hs : setDateRange mn mx m1 m2 s = s := by
    rcases h with h | h | ⟨a, b, ha, hb, hab⟩
    · subst h; cases mx <;> rfl
    · subst h; cases mn <;> rfl
    · subst ha; subst hb
      simp only [setDateRange]
      rw [if_neg (by omega)]
  rw [hs]
  exact ⟨rfl, rfl, rfl, rfl⟩

/-- Witness for setDateRange_invalid_noop: the out-of-order range 5..3 is
rejected on the sample state. -/
theorem setDateRange_invalid_noop_witness :
    minimumDate (setDateRange (some 5) (some 3) "a" "b" sampleState) =
      minimumDate sampleState ∧
    maximumDate (setDateRange (some 5) (some 3) "a" "b" sampleState) =
      maximumDate sampleState ∧
    (setDateRange (some 5) (some 3) "a" "b" sampleState).m_minWarnMsg =
      sampleState.m_minWarnMsg ∧
    (setDateRange (some 5) (some 3) "a" "b" sampleState).m_maxWarnMsg =
      sampleState.m_maxWarnMsg :=
  setDateRange_invalid_noop sampleState (some 5) (some 3) "a" "b"
    (Or.inr (Or.inr ⟨5, 3, rfl, rfl, by decide⟩))

/-- Claim C4: setMinimumDate with an invalid date or a date above the
current maximum is a no-op, and setMaximumDate with an invalid date or a
date below the current minimum is a no-op. -/
theorem setMinimum_setMaximum_invalid_noop (s : KDateComboBoxState)
    (dmin dmax : QDate) (m1 m2 : String) :
    ((dmin = none ∨ ∃ a b, dmin = some a ∧ maximumDate s = some b ∧ b < a) →
      setMinimumDate dmin m1 s = s) ∧
    ((dmax = none ∨ ∃ a b, dmax = some b ∧ minimumDate s = some a ∧ b < a) →
      setMaximumDate dmax m2 s = s) := by
  constructor
  · rintro (h | ⟨a, b, ha, hb, hab⟩)
    · subst h; rfl
    · subst ha
      unfold maximumDate at hb
      simp only [setMinimumDate, hb, if_pos hab]
  · rintro (h | ⟨a, b, hb, ha, hab⟩)
    · subst h; rfl
    · subst hb
      unfold minimumDate at ha
      simp only [setMaximumDate, ha, if_pos hab]

/-- Witness for setMinimum_setMaximum_invalid_noop: on the sample state
with range 10..20, a minimum of 30 and a maximum of 5 are both rejected. -/
theorem setMinimum_setMaximum_invalid_noop_witness :
    setMinimumDate (some 30) "w" sampleState = sampleState ∧
    setMaximumDate (some 5) "w" sampleState = sampleState :=
  ⟨(setMinimum_setMaximum_invalid_noop sampleState (some 30) (some 5) "w" "w").1
      (Or.inr ⟨30, 20, rfl, rfl, by decide⟩),
   (setMinimum_setMaximum_invalid_noop sampleState (some 30) (some 5) "w" "w").2
      (Or.inr ⟨10, 5, rfl, rfl, by decide⟩)⟩

/-- Helper for claim C3: setDateRange keeps the range consistent. -/
theorem rangeConsistent_setDateRange (s : KDateComboBoxState)
    (h : rangeConsistent s = true) (mn mx : QDate) (m1 m2 : String) :
    rangeConsistent (setDateRange mn mx m1 m2 s) = true := by
  rcases mn with _ | a
  · cases mx <;> exact h
  · rcases mx with _ | b
    · exact h
    · simp only [setDateRange]
      split_ifs with hab
      · simp [rangeConsistent, hab]
      · exact h

/-- Helper for claim C3: setMinimumDate keeps the range consistent. -/
theorem rangeConsistent_setMinimumDate (s : KDateComboBoxState)
    (h : rangeConsistent s = true) (mn : QDate) (m1 : String) :
    rangeConsistent (setMinimumDate mn m1 s) = true := by
  rcases mn with _ | a
  · exact h
  · rcases hmx : s.m_maxDate with _ | b
    · simp [setMinimumDate, hmx, rangeConsistent]
    · simp only [setMinimumDate, hmx]
      split_ifs with hb
      · exact h
      · simp only [rangeConsistent, hmx]
        simp
        omega

/-- Helper for claim C3: setMaximumDate keeps the range consistent. -/
theorem rangeConsistent_setMaximumDate (s : KDateComboBoxState)
    (h : rangeConsistent s = true) (mx : QDate) (m2 : String) :
    rangeConsistent (setMaximumDate mx m2 s) = true := by
  rcases mx with _ | b
  · exact h
  · rcases hmn : s.m_minDate with _ | a
    · simp [setMaximumDate, hmn, rangeConsistent]
    · simp only [setMaximumDate, hmn]
      split_ifs with hb
      · exact h
      · simp only [rangeConsistent, hmn]
        simp
        omega

/-- Claim C3: every operation of the widget preserves the range invariant:
whenever both a minimum and a maximum date are set afterwards, the minimum
is at most the maximum. -/
theorem range_invariant_preserved (s : KDateComboBoxState)
    (h : rangeConsistent s = true)
    (mn mx d : QDate) (m1 m2 : String) (o : Nat) (mp : List (QDate × String)) :
    rangeConsistent (setDateRange mn mx m1 m2 s) = true ∧
    rangeConsistent (setMinimumDate mn m1 s) = true ∧
    rangeConsistent (setMaximumDate mx m2 s) = true ∧
    rangeConsistent (resetDateRange s) = true ∧
    rangeConsistent (resetMinimumDate s) = true ∧
    rangeConsistent (resetMaximumDate s) = true ∧
    rangeConsistent (setDate d s) = true ∧
    rangeConsistent (setDateMap mp s) = true ∧
    rangeConsistent (setOptions o s) = true := by
  refine ⟨rangeConsistent_setDateRange s h mn mx m1 m2,
          rangeConsistent_setMinimumDate s h mn m1,
          rangeConsistent_setMaximumDate s h mx m2,
          rfl, ?_, ?_, h, h, h⟩
  · cases hmx : s.m_maxDate <;> simp [resetMinimumDate, rangeConsistent, hmx]
  · cases hmn : s.m_minDate <;> simp [resetMaximumDate, rangeConsistent, hmn]

/-- Witness for range_invariant_preserved on the sample state with range
10..20, for representative arguments of each operation. -/
theorem range_invariant_preserved_witness :
    rangeConsistent (setDateRange (some 12) (some 18) "a" "b" sampleState) = true ∧
    rangeConsistent (setMinimumDate (some 12) "a" sampleState) = true ∧
    rangeConsistent (setMaximumDate (some 18) "b" sampleState) = true ∧
    rangeConsistent (resetDateRange sampleState) = true ∧
    rangeConsistent (resetMinimumDate sampleState) = true ∧
    rangeConsistent (resetMaximumDate sampleState) = true ∧
    rangeConsistent (setDate (some 99) sampleState) = true ∧
    rangeConsistent (setDateMap [(none, "x")] sampleState) = true ∧
    rangeConsistent (setOptions 0 sampleState) = true :=
  range_invariant_preserved sampleState (by decide)
    (some 12) (some 18) (some 99) "a" "b" 0 [(none, "x")]

/-- Helper for claim C6: the entered input is reported not valid exactly
when it is null or lies outside a set bound. -/
theorem not_isValid_iff (s : KDateComboBoxState) :
    isValid s = false ↔
      (s.m_date = none ∨
        ∃ x, s.m_date = some x ∧
          ((∃ a, s.m_minDate = some a ∧ x < a) ∨
           (∃ b, s.m_maxDate = some b ∧ b < x))) := by
  rcases hd : s.m_date with _ | x <;>
    rcases hmn : s.m_minDate with _ | a <;>
    rcases hmx : s.m_maxDate with _ | b <;>
    simp [isValid, hd, hmn, hmx] <;>
    omega

/-- Claim C6: on focus loss, the warning is shown if and only if the
WarnOnInvalid option is enabled and the entered date is unparsable (null)
or outside the set minimum/maximum range. -/
theorem focusOut_warning_iff (s : KDateComboBoxState) :
    focusOutWarns s = true ↔
      (hasOption s WarnOnInvalid = true ∧
        (s.m_date = none ∨
          ∃ x, s.m_date = some x ∧
            ((∃ a, s.m_minDate = some a ∧ x < a) ∨
             (∃ b, s.m_maxDate = some b ∧ b < x)))) := by
  unfold focusOutWarns
  rw [Bool.and_eq_true, Bool.not_eq_true']
  constructor
  · rintro ⟨h1, h2⟩
    exact ⟨h1, (not_isValid_iff s).1 h2⟩
  · rintro ⟨h1, h2⟩
    exact ⟨h1, (not_isValid_iff s).2 h2⟩

end KDateComboBox

/-- Helper for claim C5: the key order on QDate is transitive. -/
theorem qdateLt_trans (a b c : QDate) (h1 : qdateLt a b = true)
    (h2 : qdateLt b c = true) : qdateLt a c = true := by
  rcases a with _ | x <;> rcases b with _ | y <;> rcases c with _ | z <;>
    simp_all [qdateLt] <;> omega

/-- Helper for claim C5: QDate keys unordered both ways are equal. -/
theorem qdateLt_antisymm (a b : QDate) (h1 : qdateLt a b = false)
    (h2 : qdateLt b a = false) : a = b := by
  rcases a with _ | x <;> rcases b with _ | y <;> simp_all [qdateLt] <;> omega

/-- Helper for claim C5: a strict lower bound transfers down the order. -/
theorem allLt_trans (p q : QDate) (l : List (QDate × String))
    (hpq : qdateLt p q = true) (h : allLt q l = true) : allLt p l = true := by
  induction l with
  | nil => rfl
  | cons a t ih =>
    simp only [allLt, List.all_cons, Bool.and_eq_true] at h
    simp only [allLt, List.all_cons, Bool.and_eq_true]
    exact ⟨qdateLt_trans p q a.1 hpq h.1, ih h.2⟩

/-- Helper for claim C5: inserting a key above a lower bound keeps the
bound. -/
theorem allLt_qmapInsert (p k : QDate) (v : String) (l : List (QDate × String))
    (hk : qdateLt p k = true) (h : allLt p l = true) :
    allLt p (qmapInsert k v l) = true := by
  induction l with
  | nil => simp [qmapInsert, allLt, hk]
  | cons a t ih =>
    obtain ⟨k1, v1⟩ := a
    simp only [allLt, List.all_cons, Bool.and_eq_true] at h
    simp only [qmapInsert]
    split_ifs with h1 h2
    · simp only [allLt, List.all_cons, Bool.and_eq_true]
      exact ⟨hk, h.1, h.2⟩
    · simp only [allLt, List.all_cons, Bool.and_eq_true]
      exact ⟨h.1, ih h.2⟩
    · simp only [allLt, List.all_cons, Bool.and_eq_true]
      exact ⟨hk, h.2⟩

/-- Helper for claim C5: QMap insertion preserves sortedness of the keys. -/
theorem keysSorted_qmapInsert (k : QDate) (v : String)
    (l : List (QDate × String)) (h : keysSorted l = true) :
    keysSorted (qmapInsert k v l) = true := by
  induction l with
  | nil => rfl
  | cons a t ih =>
    obtain ⟨k1, v1⟩ := a
    simp only [keysSorted, Bool.and_eq_true] at h
    simp only [qmapInsert]
    split_ifs with h1 h2
    · simp only [keysSorted, Bool.and_eq_true]
      refine ⟨?_, h.1, h.2⟩
      simp only [allLt, List.all_cons, Bool.and_eq_true]
      exact ⟨h1, allLt_trans k k1 t h1 h.1⟩
    · simp only [keysSorted, Bool.and_eq_true]
      exact ⟨allLt_qmapInsert k1 k v t h2 h.1, ih h.2⟩
    · have hk : k = k1 :=
        qdateLt_antisymm k k1 (by simpa using h1) (by simpa using h2)
      simp only [keysSorted, Bool.and_eq_true]
      refine ⟨?_, h.2⟩
      rw [hk]
      exact h.1

/-- Helper for claim C5: folding QMap insertions over a sorted accumulator
yields a sorted map. -/
theorem keysSorted_foldl (l : List (QDate × String)) :
    ∀ m : List (QDate × String), keysSorted m = true →
      keysSorted (l.foldl (fun acc kv => qmapInsert kv.1 kv.2 acc) m) = true := by
  induction l with
  | nil =>
    intro m hm
    simpa using hm
  | cons a t ih =>
    intro m hm
    simp only [List.foldl_cons]
    exact ih _ (keysSorted_qmapInsert a.1 a.2 m hm)

/-- Claim C5: after setDateMap with a QMap built from any sequence of
key/value insertions (invalid and duplicate dates included), the entries
returned by dateMap are strictly ordered by date key. -/
theorem setDateMap_dateMap_sorted (l : List (QDate × String))
    (s : KDateComboBoxState) :
    keysSorted (KDateComboBox.dateMap
      (KDateComboBox.setDateMap (qmapFromList l) s)) = true :=
  keysSorted_foldl l [] rfl

namespace KDateTable

/-- Claim C8: for every day displayed in the current month's grid, the cell
index computed by posFromDate maps back to the same day via dateFromPos. -/
theorem dateFromPos_posFromDate (t : KDateTableState) (day : Nat)
    (h1 : 1 ≤ day) (h2 : day ≤ t.daysInMonth) :
    dateFromPos t (posFromDate t day) = day := by
  unfold dateFromPos posFromDate
  omega

/-- Witness for dateFromPos_posFromDate: day 15 of the sample month. -/
theorem dateFromPos_posFromDate_witness :
    1 ≤ 15 ∧ 15 ≤ sampleTable.daysInMonth ∧
    dateFromPos sampleTable (posFromDate sampleTable 15) = 15 :=
  ⟨by decide, by decide,
   dateFromPos_posFromDate sampleTable 15 (by decide) (by decide)⟩

end KDateTable
